import Mathlib

/-!
Shallow embedding of the arena allocator in `src/src/arena.c` (header
`src/include/arena.h`).

Addresses and sizes (`char*`, `size_t`) are modelled as `Nat`; buffer
contents as a `List Nat` of byte values.  The environment behaviour of
`realloc` — whether it succeeds, the address of the relocated block and the
uninitialised bytes it appends — is passed in explicitly as a
`ReallocOutcome` argument, so every function stays a pure, executable
Lean definition.  C behaviour that is undefined (the modulo by zero reached
when `alignment == 0`) is surfaced as an explicit result constructor.
-/

/-- Value of the C enum constant `ARENA_SUCCESS` (first enumerator, value 0).
The enum is modelled by its numeric values because `arena_allocate` tests the
result with C's `!` operator, which compares against 0. -/
def ARENA_SUCCESS : Nat := 0

/-- Value of the C enum constant `ARENA_ERROR_ALLOCATION_FAILED` (value 1). -/
def ARENA_ERROR_ALLOCATION_FAILED : Nat := 1

/-- Value of the C enum constant `ARENA_ERROR_REALLOCATION_FAILED` (value 2). -/
def ARENA_ERROR_REALLOCATION_FAILED : Nat := 2

/-- The C struct `Arena`: `start` and `current` are byte addresses
(`char*` pointers), `size` is the capacity in bytes.  `buf` is the content
of the heap block `[start, start + size)`, which the C code accesses through
the pointers; it is carried alongside the three struct fields so that
`memset` and `realloc` content effects can be stated. -/
structure Arena where
  start : Nat
  current : Nat
  size : Nat
  buf : List Nat
  deriving DecidableEq, Repr

/-- Behaviour of the surrounding memory manager for one `realloc` call:
either it fails (returns `NULL`), or it succeeds, returning a block at
address `newStart` whose bytes beyond the preserved prefix are the
uninitialised values `junk`. -/
inductive ReallocOutcome where
  | fail : ReallocOutcome
  | ok (newStart : Nat) (junk : List Nat) : ReallocOutcome
  deriving DecidableEq, Repr

/-- Result of `arena_allocate`, which returns `void*` in C: a pointer
(`ok`), the `NULL` pointer, or the undefined behaviour reached by computing
`current % alignment` with `alignment == 0`. -/
inductive AllocResult where
  | ok (ptr : Nat) : AllocResult
  | nullPtr : AllocResult
  | ubModZero : AllocResult
  deriving DecidableEq, Repr

/-- Effect of `memset(buf + off, 0, n)` on the byte list `buf`: indices in
`[off, off + n)` become 0, all others keep their value.  Indices beyond the
end of the list simply do not exist in the model (in C such a write is an
out-of-bounds heap write). -/
def memsetZero (buf : List Nat) (off n : Nat) : List Nat :=
  (List.range buf.length).map fun i =>
    if off ≤ i ∧ i < off + n then 0 else buf.getD i 0

/-- `arena_new(initial_size)` in the success path: a fresh arena whose
cursor sits at the buffer start.  `startAddr` is the address `malloc`
returned and `mem` the uninitialised content of the block (truncated or
zero-padded to `initial_size` so the buffer has the malloc'd length).  The
two malloc-failure early returns of the C function produce no arena and are
not needed by any claim, so only the successful construction is modelled. -/
def arena_new (initial_size startAddr : Nat) (mem : List Nat) : Arena :=
  { start := startAddr
    current := startAddr
    size := initial_size
    buf := mem.take initial_size ++ List.replicate (initial_size - mem.length) 0 }

/-- `arena_grow(arena, additional_size)`:
`newSize = size + additional_size`; `realloc` either fails — the function
returns `ARENA_ERROR_REALLOCATION_FAILED` and the arena is untouched — or
succeeds, after which `usedBytes = current - start` (computed from the old
pointers), `start` becomes the new block address, `current = start +
usedBytes`, `size = newSize`, and the block keeps its first `size` bytes
(realloc preserves `min(old, new)` bytes) followed by the uninitialised
tail. -/
def arena_grow (arena : Arena) (additional_size : Nat) (realloc : ReallocOutcome) :
    Nat × Arena :=
  let newSize := arena.size + additional_size
  match realloc with
  | ReallocOutcome.fail => (ARENA_ERROR_REALLOCATION_FAILED, arena)
  | ReallocOutcome.ok newStart junk =>
      let usedBytes := arena.current - arena.start
      (ARENA_SUCCESS,
        { start := newStart
          current := newStart + usedBytes
          size := newSize
          buf := (arena.buf ++ junk).take newSize })

/-- The adjustment computation at the top of `arena_allocate`:
`adjustment = alignment - ((size_t)current % alignment)`, then
`if (adjustment == alignment) adjustment = 0`.  (With `alignment == 0` the
C code never reaches this value: the modulo itself is undefined; that case
is excluded before this helper is consulted.) -/
def arena_adjust (current alignment : Nat) : Nat :=
  let adjustment := alignment - current % alignment
  if adjustment = alignment then 0 else adjustment

/-- The tail of `arena_allocate` after the growth check:
`ptr = current + adjustment; current += adjustment + size;
memset(ptr, 0, size); return ptr;`. -/
def arena_commit (arena : Arena) (adjustment size : Nat) : AllocResult × Arena :=
  let ptr := arena.current + adjustment
  (AllocResult.ok ptr,
    { arena with
        current := arena.current + adjustment + size
        buf := memsetZero arena.buf (ptr - arena.start) size })

/-- `arena_allocate(arena, size, alignment)`.  With `alignment == 0` the C
expression `(size_t)arena->current % alignment` is a modulo by zero
(undefined behaviour), surfaced as `ubModZero`.  Otherwise the cursor is
aligned, and if `current + adjustment + size > start + size` the code calls
`arena_grow(arena, arena->size * 2 + adjustment)` and tests the result with
`if (!arena_grow(...))` — C's `!e` is `e == 0`, and `ARENA_SUCCESS == 0`,
so the `return NULL` branch is taken exactly when growth succeeds, and the
function falls through to the bump-and-memset tail when growth failed. -/
def arena_allocate (arena : Arena) (size alignment : Nat) (realloc : ReallocOutcome) :
    AllocResult × Arena :=
  if alignment = 0 then
    (AllocResult.ubModZero, arena)
  else
    let adjustment := arena_adjust arena.current alignment
    if arena.current + adjustment + size > arena.start + arena.size then
      let g := arena_grow arena (arena.size * 2 + adjustment) realloc
      if g.1 = 0 then
        (AllocResult.nullPtr, g.2)
      else
        arena_commit g.2 adjustment size
    else
      arena_commit arena adjustment size

/-- `arena_reset(arena)`: `arena->current = arena->start`. -/
def arena_reset (arena : Arena) : Arena :=
  { arena with current := arena.start }

/-- `arena_used(arena)`: `arena->current - arena->start`. -/
def arena_used (arena : Arena) : Nat :=
  arena.current - arena.start

/-- `arena_available(arena)`: `arena->size - (arena->current - arena->start)`. -/
def arena_available (arena : Arena) : Nat :=
  arena.size - (arena.current - arena.start)

/-- `arena_utilization(arena)`:
`(float)arena_used(arena) / arena->size * 100.0f`, modelled over `ℚ`
(exact rational arithmetic stands in for `float`; every concrete value used
in the theorems below is exactly representable, so no rounding is elided). -/
def arena_utilization (arena : Arena) : ℚ :=
  (arena_used arena : ℚ) / (arena.size : ℚ) * 100

/-! ### Helper lemmas -/

theorem length_memsetZero (buf : List Nat) (off n : Nat) :
    (memsetZero buf off n).length = buf.length := by
  simp [memsetZero]

theorem memsetZero_zero (buf : List Nat) (off : Nat) :
    memsetZero buf off 0 = buf := by
  apply List.ext_getElem
  · simp [memsetZero]
  · intro i h1 h2
    simp only [memsetZero, List.getElem_map, List.getElem_range]
    rw [if_neg (by omega)]
    exact List.getD_eq_getElem buf 0 h2

theorem arena_adjust_mod (current alignment : Nat) (h : alignment ≠ 0) :
    (current + arena_adjust current alignment) % alignment = 0 := by
  have hpos : 0 < alignment := Nat.pos_of_ne_zero h
  have hlt : current % alignment < alignment := Nat.mod_lt _ hpos
  simp only [arena_adjust]
  by_cases hz : current % alignment = 0
  · rw [hz]
    simp [Nat.add_mod, hz]
  · rw [if_neg (by omega)]
    have hq := Nat.div_add_mod current alignment
    have hmul : alignment * (current / alignment + 1)
        = alignment * (current / alignment) + alignment := by ring
    have heq : current + (alignment - current % alignment)
        = alignment * (current / alignment + 1) := by omega
    rw [heq]
    exact Nat.mul_mod_right _ _

theorem allocate_ok_ptr (a : Arena) (size alignment : Nat) (r : ReallocOutcome)
    (ptr : Nat) (hal : alignment ≠ 0)
    (hok : (arena_allocate a size alignment r).1 = AllocResult.ok ptr) :
    ptr = a.current + arena_adjust a.current alignment := by
  simp only [arena_allocate, arena_commit, if_neg hal] at hok
  cases r with
  | fail =>
      simp only [arena_grow] at hok
      split at hok
      · simp only [ARENA_ERROR_REALLOCATION_FAILED] at hok
        rw [if_neg (by norm_num)] at hok
        exact (AllocResult.ok.injEq _ _ ▸ hok).symm
      · exact (AllocResult.ok.injEq _ _ ▸ hok).symm
  | ok ns junk =>
      simp only [arena_grow] at hok
      split at hok
      · simp [ARENA_SUCCESS] at hok
      · exact (AllocResult.ok.injEq _ _ ▸ hok).symm

/-! ### Claim theorems -/

/-- Claim C1 (code bug, evaluated at the failing input): on a fresh arena of
capacity 8, the call allocate(10, 1) triggers growth; with the realloc
succeeding, arena_grow returns ARENA_SUCCESS for the very amount allocate
requests, yet arena_allocate returns NULL — the opposite of the claim, which
says allocate fails only when growth fails.  The cause is the test
`if (!arena_grow(...))` in arena.c line 48, which is true exactly when
arena_grow returns ARENA_SUCCESS (value 0). -/
theorem C1_allocate_fails_when_growth_succeeds :
    (arena_allocate (arena_new 8 0 []) 10 1 (ReallocOutcome.ok 0 (List.replicate 16 0))).1
      = AllocResult.nullPtr ∧
    (arena_grow (arena_new 8 0 []) 16 (ReallocOutcome.ok 0 (List.replicate 16 0))).1
      = ARENA_SUCCESS := by
  decide

/-- Claim C2, counterexample: on a fresh arena of capacity 8, allocate(10, 1)
(padding 0, used 0) leaves capacity 24, not the claimed
max(capacity * 2 + padding, used + padding + size) = max(16, 10) = 16. -/
theorem C2_capacity_not_max_formula :
    ((arena_allocate (arena_new 8 0 []) 10 1 (ReallocOutcome.ok 0 (List.replicate 16 0))).2).size
      ≠ max (8 * 2 + 0) (0 + 0 + 10) := by
  decide

/-- Claim C2 as amended: when allocate(size, alignment) needs more space and
the reallocation succeeds, the new capacity equals 3 * capacity + padding
(arena_grow is called with additional = capacity * 2 + padding, on top of the
existing capacity); nothing guarantees that a single growth round fits the
request. -/
theorem C2_growth_triples_capacity (a : Arena) (size alignment ns : Nat)
    (junk : List Nat) (h0 : alignment ≠ 0)
    (h1 : a.current + arena_adjust a.current alignment + size > a.start + a.size) :
    ((arena_allocate a size alignment (ReallocOutcome.ok ns junk)).2).size
      = 3 * a.size + arena_adjust a.current alignment := by
  simp only [arena_allocate, arena_grow, if_neg h0]
  rw [if_pos h1]
  simp [ARENA_SUCCESS]
  ring

/-- Witness for C2_growth_triples_capacity at a fresh arena of capacity 8 and
the call allocate(10, 1). -/
theorem C2_growth_triples_capacity_witness :
    ((arena_allocate (arena_new 8 0 []) 10 1 (ReallocOutcome.ok 0 (List.replicate 16 0))).2).size
      = 3 * (arena_new 8 0 []).size + arena_adjust (arena_new 8 0 []).current 1 :=
  C2_growth_triples_capacity (arena_new 8 0 []) 10 1 0 (List.replicate 16 0)
    (by decide) (by decide)

/-- Claim C3 (code bug, evaluated at the failing input): on a fresh arena of
capacity 8, allocate(10, 1) with the reallocation failing leaves the cursor
at base + 10, strictly beyond base + capacity = base + 8: the invariant
cursor ≤ base + capacity is broken.  The inverted growth check lets the code
fall through after a failed growth and bump the cursor anyway. -/
theorem C3_cursor_exceeds_capacity :
    ((arena_allocate (arena_new 8 0 []) 10 1 ReallocOutcome.fail).2).current
      > ((arena_allocate (arena_new 8 0 []) 10 1 ReallocOutcome.fail).2).start
        + ((arena_allocate (arena_new 8 0 []) 10 1 ReallocOutcome.fail).2).size := by
  decide

/-- Claim C4: arena_grow either fails, returning ARENA_ERROR_REALLOCATION_FAILED
with the arena bit-for-bit unchanged, or succeeds, returning ARENA_SUCCESS with
capacity = old capacity + n, the cursor relocated to the new base plus the old
used count (so used() is unchanged), and the first used() bytes of content
preserved. -/
theorem C4_grow_spec (a : Arena) (n ns : Nat) (junk : List Nat)
    (hbuf : a.buf.length = a.size)
    (hcur : a.start ≤ a.current)
    (hin : a.current ≤ a.start + a.size)
    (hjunk : junk.length = n) :
    arena_grow a n ReallocOutcome.fail = (ARENA_ERROR_REALLOCATION_FAILED, a) ∧
    (arena_grow a n (ReallocOutcome.ok ns junk)).1 = ARENA_SUCCESS ∧
    ((arena_grow a n (ReallocOutcome.ok ns junk)).2).size = a.size + n ∧
    ((arena_grow a n (ReallocOutcome.ok ns junk)).2).current = ns + arena_used a ∧
    ((arena_grow a n (ReallocOutcome.ok ns junk)).2).buf.length = a.size + n ∧
    arena_used ((arena_grow a n (ReallocOutcome.ok ns junk)).2) = arena_used a ∧
    ∀ i, i < arena_used a →
      (((arena_grow a n (ReallocOutcome.ok ns junk)).2).buf)[i]? = a.buf[i]? := by
  have hused : arena_used a ≤ a.size := by
    simp only [arena_used]; omega
  refine ⟨rfl, rfl, rfl, rfl, ?_, ?_, ?_⟩
  · simp only [arena_grow, List.length_take, List.length_append]
    omega
  · simp [arena_grow, arena_used]
  · intro i hi
    simp only [arena_grow]
    rw [List.getElem?_take, if_pos (by omega), List.getElem?_append, if_pos (by omega)]

/-- Witness for C4_grow_spec: a fresh arena of capacity 8 grown by 16 bytes
ends with capacity 8 + 16. -/
theorem C4_grow_spec_witness :
    ((arena_grow (arena_new 8 0 []) 16 (ReallocOutcome.ok 0 (List.replicate 16 0))).2).size
      = (arena_new 8 0 []).size + 16 :=
  (C4_grow_spec (arena_new 8 0 []) 16 0 (List.replicate 16 0)
    (by decide) (by decide) (by decide) (by decide)).2.2.1

/-- Claim C5 (code bug, evaluated at the failing input): allocate(4, 0) on a
fresh arena of capacity 8 reaches the modulo by zero in
`alignment - ((size_t)arena->current % alignment)` — undefined behaviour,
modelled as the ubModZero outcome — instead of failing fast on the violated
precondition as the claim requires. -/
theorem C5_alignment_zero_is_mod_zero :
    (arena_allocate (arena_new 8 0 []) 4 0 ReallocOutcome.fail).1
      = AllocResult.ubModZero := by
  decide

/-- Claim C6 (code bug, evaluated at the failing input): on a fresh arena of
capacity 8, allocate(10, 1) with the reallocation failing returns a non-NULL
pointer (offset 0), i.e. the call succeeds as far as its caller can tell, yet
the 10-byte region it returns extends past the 8-byte buffer: bytes 8 and 9
of the region are outside the arena's block, the memset on them is an
out-of-bounds write, and they cannot be guaranteed to read as zero. -/
theorem C6_returned_region_exceeds_buffer :
    (arena_allocate (arena_new 8 0 []) 10 1 ReallocOutcome.fail).1
      = AllocResult.ok 0 ∧
    ((arena_allocate (arena_new 8 0 []) 10 1 ReallocOutcome.fail).2).buf.length
      < 0 + 10 := by
  decide

/-- Claim C7: every successful arena_allocate call with a power-of-two
alignment (2 ^ k ≥ 1) returns an address that is a multiple of the alignment:
the returned pointer is current + adjustment with
adjustment = (alignment - current % alignment) mod alignment. -/
theorem C7_returned_address_aligned (a : Arena) (size alignment : Nat)
    (r : ReallocOutcome) (ptr k : Nat)
    (hpow : alignment = 2 ^ k)
    (hok : (arena_allocate a size alignment r).1 = AllocResult.ok ptr) :
    ptr % alignment = 0 := by
  have hal : alignment ≠ 0 := by
    have := Nat.two_pow_pos k
    omega
  rw [allocate_ok_ptr a size alignment r ptr hal hok]
  exact arena_adjust_mod a.current alignment hal

/-- Witness for C7_returned_address_aligned: allocate(2, 4) on an arena whose
cursor sits at address 5 returns address 8, a multiple of 4. -/
theorem C7_returned_address_aligned_witness : (8 : Nat) % 4 = 0 :=
  C7_returned_address_aligned
    { start := 0, current := 5, size := 16, buf := List.replicate 16 7 }
    2 4 ReallocOutcome.fail 8 2 (by norm_num) (by decide)

/-- Claim C8, counterexample: an arena of capacity 8 with 4 bytes used has
arena_utilization equal to 50, which is neither the ratio 4 / 8 = 1 / 2 nor
inside [0, 1]: the code computes used / size * 100. -/
theorem C8_utilization_is_not_a_ratio :
    arena_utilization { start := 0, current := 4, size := 8, buf := List.replicate 8 0 }
      = 50 ∧
    ¬ (arena_utilization { start := 0, current := 4, size := 8, buf := List.replicate 8 0 }
      ≤ 1) := by
  constructor
  · norm_num [arena_utilization, arena_used]
  · norm_num [arena_utilization, arena_used]

/-- Claim C8 as amended: for a live arena with nonzero capacity and the cursor
inside the buffer, arena_utilization returns used / capacity * 100 — a
percentage lying in [0, 100], not a ratio in [0, 1]. -/
theorem C8_utilization_percentage_bounds (a : Arena) (h0 : 0 < a.size)
    (h1 : a.current ≤ a.start + a.size) :
    arena_utilization a = (arena_used a : ℚ) / (a.size : ℚ) * 100 ∧
    0 ≤ arena_utilization a ∧ arena_utilization a ≤ 100 := by
  have hus : arena_used a ≤ a.size := by
    simp only [arena_used]; omega
  have hsq : (0 : ℚ) < (a.size : ℚ) := by exact_mod_cast h0
  refine ⟨rfl, ?_, ?_⟩
  · unfold arena_utilization
    positivity
  · unfold arena_utilization
    have hdiv : (arena_used a : ℚ) / (a.size : ℚ) ≤ 1 := by
      rw [div_le_one hsq]
      exact_mod_cast hus
    calc (arena_used a : ℚ) / (a.size : ℚ) * 100
        ≤ 1 * 100 := by
          exact mul_le_mul_of_nonneg_right hdiv (by norm_num)
      _ = 100 := by norm_num

/-- Witness for C8_utilization_percentage_bounds at an arena of capacity 8
with 4 bytes used. -/
theorem C8_utilization_percentage_bounds_witness :
    arena_utilization { start := 0, current := 4, size := 8, buf := List.replicate 8 0 }
      ≤ 100 :=
  (C8_utilization_percentage_bounds
    { start := 0, current := 4, size := 8, buf := List.replicate 8 0 }
    (by decide) (by decide)).2.2

/-- Claim C9: arena_reset only rewrites the cursor to the buffer start, so
afterwards used() is 0 while the capacity and every byte of the buffer are
exactly what they were before the reset. -/
theorem C9_reset_rewinds_only (a : Arena) :
    arena_used (arena_reset a) = 0 ∧
    (arena_reset a).size = a.size ∧
    (arena_reset a).buf = a.buf := by
  refine ⟨?_, rfl, rfl⟩
  simp [arena_used, arena_reset]

/-- Claim C10: on a live arena whose cursor lies within the buffer,
allocate(0, 1) returns the current cursor address as a valid (non-NULL)
pointer and leaves the arena — cursor, capacity, and every byte of the
buffer — completely unchanged, so used() and available() are unchanged too. -/
theorem C10_zero_size_alloc_is_noop (a : Arena) (r : ReallocOutcome)
    (h : a.current ≤ a.start + a.size) :
    arena_allocate a 0 1 r = (AllocResult.ok a.current, a) := by
  have hadj : arena_adjust a.current 1 = 0 := by
    simp [arena_adjust]
    omega
  simp only [arena_allocate, hadj, arena_commit]
  rw [if_neg (by norm_num : ¬ (1 : Nat) = 0), if_neg (by omega)]
  rw [memsetZero_zero]
  cases a
  simp

/-- Witness for C10_zero_size_alloc_is_noop: allocate(0, 1) on a 4-byte arena
at address 2 whose buffer holds junk bytes returns the cursor address 2 and
the unchanged arena. -/
theorem C10_zero_size_alloc_is_noop_witness :
    arena_allocate (arena_new 4 2 [9, 9, 9, 9]) 0 1 ReallocOutcome.fail
      = (AllocResult.ok 2, arena_new 4 2 [9, 9, 9, 9]) :=
  C10_zero_size_alloc_is_noop (arena_new 4 2 [9, 9, 9, 9]) ReallocOutcome.fail (by decide)
